import Mathlib

/-!
Verification development for the OCI Compartment and Policy Browser
(`agregory999/oci-policy-browser-js`).

The development shallowly embeds the two cores of the system:

* the backend credential/config layer of `backend/index.js`
  (`listOciProfiles`, `loadOciProfile`, `getInstanceTenancyOcid`, and the
  `/api/compartments` and `/api/policies` route handlers), and
* the client-side navigation controller of
  `frontend/src/components/CompartmentBrowser.jsx`
  (`fetchChildren`, `fetchPolicies`, `handleDrilldown`, `handleBack`, and the
  profile-selection effect).

File contents (missing or unreadable files), network responses, and upstream
identity-service results are passed in explicitly as values; JavaScript string
truthiness is modelled by a non-empty check on `Option String` / `String`.
-/

namespace OciBrowser

/-! ## Config file parsing (backend `listOciProfiles` / `loadOciProfile`)

Lines are modelled as `List Char`.  `splitLines` models
`content.split(/\r?\n/)` (used by `loadOciProfile`) and the per-line view the
`gm`-flagged header regex of `listOciProfiles` takes of the same content.
-/

/-- Split a character stream at every newline; `acc` holds the (reversed)
characters of the current line. -/
def splitCharLines (acc : List Char) : List Char → List (List Char)
  | [] => [acc.reverse]
  | ch :: rest =>
    if ch = '\n' then acc.reverse :: splitCharLines [] rest
    else splitCharLines (ch :: acc) rest

/-- Drop one carriage return at the end of a line, modelling the `\r?`
of the splitting regex `/\r?\n/`. -/
def stripCR (l : List Char) : List Char :=
  if l.getLast? = some '\r' then l.dropLast else l

/-- All lines of a configuration file content. -/
def splitLines (c : String) : List (List Char) :=
  (splitCharLines [] c.toList).map stripCR

/-- JavaScript `line.match(/^\[([^\]]+)\]/)`: a line opening with `[`,
followed by one or more characters other than `]`, followed by `]`
(anything may trail), names a section.  Returns the section name. -/
def headerName (l : List Char) : Option String :=
  match l with
  | '[' :: rest =>
    let nm := rest.takeWhile (fun ch => ch != ']')
    if nm.isEmpty then none
    else if nm.length < rest.length then some (String.mk nm) else none
  | _ => none

/-- JavaScript `String.prototype.trim` on a character list. -/
def trimChars (l : List Char) : List Char :=
  ((l.dropWhile Char.isWhitespace).reverse.dropWhile Char.isWhitespace).reverse

/-- The guard `line.trim() && !line.trim().startsWith('#')` of
`loadOciProfile`: the line is non-blank and not a comment. -/
def isContentLine (l : List Char) : Bool :=
  let t := trimChars l
  !t.isEmpty && t.head? != some '#'

/-- `line.indexOf('=')` based key/value split of `loadOciProfile`:
the first `=` delimits, both sides are trimmed; a line with no `=` parses
to nothing. -/
def parseKV (l : List Char) : Option (String × String) :=
  let key := l.takeWhile (fun ch => ch != '=')
  if key.length < l.length then
    some (String.mk (trimChars key), String.mk (trimChars (l.drop (key.length + 1))))
  else none

/-- JavaScript object assignment `profileData[key] = val`: overwrite in
place when the key exists (keeping its position), append otherwise. -/
def objInsert (obj : List (String × String)) (k v : String) : List (String × String) :=
  if obj.any (fun p => p.1 == k) then
    obj.map (fun p => if p.1 = k then (k, v) else p)
  else obj ++ [(k, v)]

/-- The line loop of `loadOciProfile`: a header line switches `inProfile` to
whether the header names the requested profile; inside the profile,
non-blank non-comment lines with an `=` populate the field object. -/
def profileFieldsAux (profileName : String) :
    Bool → List (String × String) → List (List Char) → List (String × String)
  | _, acc, [] => acc
  | inProfile, acc, line :: rest =>
    match headerName line with
    | some h => profileFieldsAux profileName (h == profileName) acc rest
    | none =>
      if inProfile && isContentLine line then
        match parseKV line with
        | some kv => profileFieldsAux profileName inProfile (objInsert acc kv.1 kv.2) rest
        | none => profileFieldsAux profileName inProfile acc rest
      else profileFieldsAux profileName inProfile acc rest

/-- The field object `loadOciProfile` accumulates for `profileName` from a
readable configuration file content. -/
def profileFields (profileName : String) (content : String) : List (String × String) :=
  profileFieldsAux profileName false [] (splitLines content)

/-- `loadOciProfile(profileName)` of `backend/index.js`.  `content` is the
configuration file text, `none` when the file is missing or unreadable
(the `catch` path).  Returns the parsed field map, or `none` when the file
could not be read or the profile has zero parsed fields. -/
def loadOciProfile (profileName : String) (content : Option String) :
    Option (List (String × String)) :=
  match content with
  | none => none
  | some c =>
    let d := profileFields profileName c
    if d = [] then none else some d

/-- `listOciProfiles()` of `backend/index.js`: every section-header line of
the configuration file, in file order; an unreadable file yields `[]`. -/
def listOciProfiles (content : Option String) : List String :=
  match content with
  | none => []
  | some c => (splitLines c).filterMap headerName

/-! ### A gather-then-merge description of `loadOciProfile`

`loadOciProfile` walks the file once with an `inProfile` flag.  The
definitions below describe the same result differently: annotate every body
line with the section it belongs to, keep the lines of the sections whose
header names the requested profile (in file order), and fold their parsed
`key=value` pairs into an object with overwrite-on-duplicate.  The theorem
for the merging claim proves the two descriptions agree. -/

/-- The `key=value` pair a body line contributes (`none` for blank lines,
comments, and lines without `=`). -/
def bodyKV (l : List Char) : Option (String × String) :=
  if isContentLine l then parseKV l else none

/-- Annotate every non-header line with the name of the section it lies in
(`cur` at entry; `none` means before the first header). -/
def annotateSections (cur : Option String) : List (List Char) → List (Option String × List Char)
  | [] => []
  | line :: rest =>
    match headerName line with
    | some h => annotateSections (some h) rest
    | none => (cur, line) :: annotateSections cur rest

/-- All `key=value` pairs of every section named `profileName`, in file
order, starting inside section `cur`. -/
def mergedSectionKVsFrom (profileName : String) (cur : Option String)
    (lines : List (List Char)) : List (String × String) :=
  ((annotateSections cur lines).filter (fun p => p.1 == some profileName)).filterMap
    (fun p => bodyKV p.2)

/-- All `key=value` pairs of every section named `profileName` in the file. -/
def mergedSectionKVs (profileName : String) (content : String) : List (String × String) :=
  mergedSectionKVsFrom profileName none (splitLines content)

/-- Fold a pair list into an object, later values overwriting earlier ones. -/
def objFold (init : List (String × String)) (kvs : List (String × String)) :
    List (String × String) :=
  kvs.foldl (fun acc kv => objInsert acc kv.1 kv.2) init

theorem objFold_cons (init : List (String × String)) (kv : String × String)
    (kvs : List (String × String)) :
    objFold init (kv :: kvs) = objFold (objInsert init kv.1 kv.2) kvs := rfl

/-- The single-pass field loop equals the gather-then-merge description,
for any starting section `cur` and accumulated object `acc`. -/
theorem profileFieldsAux_eq_objFold (profileName : String) (lines : List (List Char)) :
    ∀ (cur : Option String) (acc : List (String × String)),
      profileFieldsAux profileName (cur == some profileName) acc lines =
        objFold acc (mergedSectionKVsFrom profileName cur lines) := by
  induction lines with
  | nil =>
    intro cur acc
    simp [profileFieldsAux, mergedSectionKVsFrom, annotateSections, objFold]
  | cons line rest ih =>
    intro cur acc
    cases hh : headerName line with
    | some h =>
      have e : ((some h : Option String) == some profileName) = (h == profileName) := rfl
      simp only [profileFieldsAux, mergedSectionKVsFrom, annotateSections, hh]
      rw [← e]
      exact ih (some h) acc
    | none =>
      cases hcur : (cur == some profileName) with
      | true =>
        cases hil : isContentLine line with
        | true =>
          cases hkv : parseKV line with
          | some kv =>
            have ihx := ih cur (objInsert acc kv.1 kv.2)
            rw [hcur] at ihx
            simp only [mergedSectionKVsFrom] at ihx
            simp only [profileFieldsAux, mergedSectionKVsFrom, annotateSections, hh]
            simp [hcur, hil, hkv, bodyKV, objFold_cons, ihx]
          | none =>
            have ihx := ih cur acc
            rw [hcur] at ihx
            simp only [mergedSectionKVsFrom] at ihx
            simp only [profileFieldsAux, mergedSectionKVsFrom, annotateSections, hh]
            simp [hcur, hil, hkv, bodyKV, ihx]
        | false =>
          have ihx := ih cur acc
          rw [hcur] at ihx
          simp only [mergedSectionKVsFrom] at ihx
          simp only [profileFieldsAux, mergedSectionKVsFrom, annotateSections, hh]
          simp [hcur, hil, bodyKV, ihx]
      | false =>
        have ihx := ih cur acc
        rw [hcur] at ihx
        simp only [mergedSectionKVsFrom] at ihx
        simp only [profileFieldsAux, mergedSectionKVsFrom, annotateSections, hh]
        simp [hcur, ihx]

/-- While outside any section named `name` (and no such header ahead),
the field loop adds nothing. -/
theorem profileFieldsAux_no_header (name : String) (lines : List (List Char))
    (h : ∀ l ∈ lines, headerName l ≠ some name) :
    ∀ acc, profileFieldsAux name false acc lines = acc := by
  induction lines with
  | nil => intro acc; rfl
  | cons line rest ih =>
    intro acc
    have hrest : ∀ l ∈ rest, headerName l ≠ some name := fun l hl => h l (List.mem_cons_of_mem _ hl)
    cases hh : headerName line with
    | some hd =>
      have : hd ≠ name := by
        intro he
        exact h line (List.mem_cons_self _ _) (he ▸ hh)
      simp only [profileFieldsAux, hh, beq_eq_false_iff_ne.mpr this]
      exact ih hrest acc
    | none =>
      simp only [profileFieldsAux, hh, Bool.false_and, Bool.false_eq_true, if_false]
      exact ih hrest acc

/-! ## Theorems about the config layer -/

/-- C6: for a configuration text with exactly the two sections `[a]`
(holding `k=v`) and `[b]` (holding `x=1` and `y=2`), `listOciProfiles`
returns `["a", "b"]` in file order and `loadOciProfile "b"` returns the
field map `x ↦ "1", y ↦ "2"`. -/
theorem config_round_trip :
    listOciProfiles (some "[a]\nk=v\n[b]\nx=1\ny=2") = ["a", "b"] ∧
    loadOciProfile "b" (some "[a]\nk=v\n[b]\nx=1\ny=2") =
      some [("x", "1"), ("y", "2")] := by
  constructor <;> decide

/-- C7: a missing or unreadable configuration file yields an empty profile
list from `listOciProfiles` and not-found from `loadOciProfile` for every
name; `loadOciProfile` also returns not-found exactly when the named
profile has zero parsed fields, in particular whenever its section header
is absent from the file. -/
theorem config_missing_and_empty :
    listOciProfiles none = [] ∧
    (∀ name, loadOciProfile name none = none) ∧
    (∀ name content, loadOciProfile name (some content) = none ↔
      profileFields name content = []) ∧
    (∀ name content, name ∉ listOciProfiles (some content) →
      loadOciProfile name (some content) = none) := by
  refine ⟨rfl, fun name => rfl, fun name content => ?_, fun name content hmem => ?_⟩
  · simp only [loadOciProfile]
    by_cases hd : profileFields name content = [] <;> simp [hd]
  · have hnone : ∀ l ∈ splitLines content, headerName l ≠ some name := by
      intro l hl he
      exact hmem (List.mem_filterMap.mpr ⟨l, hl, he⟩)
    have : profileFields name content = [] :=
      profileFieldsAux_no_header name (splitLines content) hnone []
    simp [loadOciProfile, this]

/-- Witness for C7: a concrete configuration lacking section `[q]` makes
`loadOciProfile "q"` return not-found, and an unreadable file returns
not-found for `"q"` as well. -/
theorem config_missing_and_empty_witness :
    loadOciProfile "q" none = none ∧ loadOciProfile "q" (some "[a]\nx=1") = none :=
  ⟨config_missing_and_empty.2.1 "q",
   config_missing_and_empty.2.2.2 "q" "[a]\nx=1" (by decide)⟩

/-- C9: `loadOciProfile` merges every section whose header names the
requested profile: the result is the overwrite-fold of all `key=value`
pairs of all matching sections in file order (a repeated header reopens
the profile, later fields are added, a duplicate key keeps the later
value).  The concrete conjunct shows `[a]` reopened after `[b]`, with
`x=2` overwriting `x=1` and `y=4` added. -/
theorem load_profile_merges_sections :
    (∀ name content, loadOciProfile name (some content) =
      (if objFold [] (mergedSectionKVs name content) = [] then none
       else some (objFold [] (mergedSectionKVs name content)))) ∧
    loadOciProfile "a" (some "[a]\nx=1\n[b]\nz=3\n[a]\nx=2\ny=4") =
      some [("x", "2"), ("y", "4")] := by
  constructor
  · intro name content
    have e : (false : Bool) = ((none : Option String) == some name) := rfl
    have h := profileFieldsAux_eq_objFold name (splitLines content) none []
    simp only [loadOciProfile, profileFields, mergedSectionKVs]
    rw [e, h]
  · decide

/-! ## RootResolver: `getInstanceTenancyOcid` (backend, instance-principal mode)

The module-level variable `_instanceMetaTenancyOcid` is the cache, modelled
as `Option String`.  What one metadata request can come back with is
modelled by `MetaResult`: a network error, a body that fails `JSON.parse`,
or a parsed object whose `compartmentId` field is either a string
(`some s`) or absent/non-string (`none`). -/

/-- One outcome of the instance-metadata request of `getInstanceTenancyOcid`. -/
inductive MetaResult
  | netError
  | parseError
  | parsed (compartmentId : Option String)
deriving DecidableEq, Repr

/-- The value the response handler accepts: `meta.compartmentId` must be a
string of positive length (`typeof === "string" && length`). -/
def metaSuccessValue : MetaResult → Option String
  | .parsed (some s) => if s = "" then none else some s
  | _ => none

/-- JavaScript truthiness of the cache variable (`if (_instanceMetaTenancyOcid)`):
a non-empty cached string short-circuits the request. -/
def cacheTruthy : Option String → Bool
  | some s => s != ""
  | none => false

/-- One call to `getInstanceTenancyOcid`, given the cache and what the
metadata request would come back with.  Returns
(resolved value, new cache, whether the metadata request was issued). -/
def getTenancyStep (cache : Option String) (meta : MetaResult) :
    Option String × Option String × Bool :=
  if cacheTruthy cache then (cache, cache, false)
  else
    match metaSuccessValue meta with
    | some v => (some v, some v, true)
    | none => (none, cache, true)

/-- A sequence of calls to `getInstanceTenancyOcid`: the trace of
(resolved value, request issued) pairs and the final cache. -/
def runTenancyCalls (cache : Option String) :
    List MetaResult → List (Option String × Bool) × Option String
  | [] => ([], cache)
  | m :: ms =>
    let r := getTenancyStep cache m
    let rest := runTenancyCalls r.2.1 ms
    ((r.1, r.2.2) :: rest.1, rest.2)

theorem metaSuccessValue_ne_empty {m : MetaResult} {v : String}
    (h : metaSuccessValue m = some v) : v ≠ "" := by
  cases m with
  | netError => simp [metaSuccessValue] at h
  | parseError => simp [metaSuccessValue] at h
  | parsed cid =>
    cases cid with
    | none => simp [metaSuccessValue] at h
    | some s =>
      simp only [metaSuccessValue] at h
      by_cases hs : s = "" <;> simp [hs] at h
      exact h ▸ hs

/-- With a truthy cached value, every further call returns the cache and
issues no request. -/
theorem runTenancyCalls_cached (c : Option String) (hc : cacheTruthy c = true) :
    ∀ ms : List MetaResult, runTenancyCalls c ms = (ms.map (fun _ => (c, false)), c) := by
  intro ms
  induction ms with
  | nil => rfl
  | cons m rest ih => simp [runTenancyCalls, getTenancyStep, hc, ih]

/-- C2: across any sequence of calls to `getInstanceTenancyOcid` starting
from an empty cache, every call before the first successful metadata
response issues the request and resolves `null` with nothing cached; the
first successful call issues the request, caches the non-empty
`compartmentId`, and resolves it; every later call resolves the cached
value without issuing a request. -/
theorem root_memoization (pre post : List MetaResult) (r : MetaResult) (v : String)
    (hpre : ∀ m ∈ pre, metaSuccessValue m = none)
    (hr : metaSuccessValue r = some v) :
    runTenancyCalls none (pre ++ r :: post) =
      (pre.map (fun _ => ((none : Option String), true)) ++
        (some v, true) :: post.map (fun _ => ((some v : Option String), false)),
       some v) := by
  induction pre with
  | nil =>
    have hv : cacheTruthy (some v) = true := by
      simp [cacheTruthy, metaSuccessValue_ne_empty hr]
    simp [runTenancyCalls, getTenancyStep, cacheTruthy, hr,
      runTenancyCalls_cached (some v) hv post]
  | cons m pre ih =>
    have hm : metaSuccessValue m = none := hpre m (List.mem_cons_self _ _)
    have hpre2 : ∀ m2 ∈ pre, metaSuccessValue m2 = none :=
      fun m2 h2 => hpre m2 (List.mem_cons_of_mem _ h2)
    simp [runTenancyCalls, getTenancyStep, cacheTruthy, hm, ih hpre2]

/-- Witness for C2: one failing call (network error), one successful call
caching `"ocid1.tenancy.x"`, and one later call that is served from the
cache without a request. -/
theorem root_memoization_witness :
    runTenancyCalls none [MetaResult.netError,
        MetaResult.parsed (some "ocid1.tenancy.x"), MetaResult.parseError] =
      ([((none : Option String), true), (some "ocid1.tenancy.x", true),
        (some "ocid1.tenancy.x", false)], some "ocid1.tenancy.x") := by
  have h := root_memoization [MetaResult.netError] [MetaResult.parseError]
    (MetaResult.parsed (some "ocid1.tenancy.x")) "ocid1.tenancy.x"
    (by intro m hm; simp at hm; subst hm; rfl) (by decide)
  simpa using h

/-! ## Backend route handlers (`/api/compartments`, `/api/policies`)

The handlers are embedded as functions of the request query parameters,
the process mode flag (`--instance-principal`), the configuration file
content, the metadata cache/response, and the outcome the upstream
identity-service call would have.  Each run records the HTTP status, the
JSON body, and whether the upstream identity call / metadata request were
actually made. -/

/-- A compartment object returned by the identity service.
`compartmentId` is the parent reference the frontend uses as a root hint. -/
structure Grouping where
  id : String
  name : String
  description : String
  compartmentId : Option String
deriving DecidableEq, Repr

/-- A policy object returned by the identity service. -/
structure Policy where
  id : String
  name : String
  statements : List String
deriving DecidableEq, Repr

/-- Outcome of an upstream identity-service list call: a response whose
`items` field may be absent (`response.items || []`), or a thrown error
whose `message` may be absent or empty (`err.message || fallback`). -/
inductive Upstream (α : Type)
  | ok (items : Option (List α))
  | thrown (msg : Option String)
deriving DecidableEq

/-- Response body sent by a route handler. -/
inductive ApiBody (α : Type)
  | items (xs : List α)
  | failure (msg : String)
deriving DecidableEq

/-- JavaScript truthiness of an optional query parameter / field. -/
def optTruthy : Option String → Bool
  | some s => s != ""
  | none => false

/-- `err.message || fallback` and `data.error || fallback`. -/
def strOr (m : Option String) (fallback : String) : String :=
  match m with
  | some s => if s = "" then fallback else s
  | none => fallback

/-- The fixed sentinel profile name of instance-principal mode. -/
def INSTANCE_PRINCIPAL_PROFILE_NAME : String := "instance-principal"

/-- First value of a key in a field object (`profileConfig.tenancy`). -/
def objGet (obj : List (String × String)) (k : String) : Option String :=
  (obj.find? (fun p => p.1 == k)).map (fun p => p.2)

/-- Result of one `/api/compartments` request.  `upstreamCompartmentId` is
the `compartmentId` the upstream request would carry (`none` when the
upstream call is never reached; `some none` models `undefined`). -/
structure CompartmentsRun where
  status : Nat
  body : ApiBody Grouping
  identityCalled : Bool
  metadataRequested : Bool
  newRootCache : Option String
  upstreamCompartmentId : Option (Option String)
deriving DecidableEq

/-- Result of one `/api/policies` request. -/
structure PoliciesRun where
  status : Nat
  body : ApiBody Policy
  identityCalled : Bool
deriving DecidableEq

/-- The `GET /api/compartments` handler of `backend/index.js`.
In instance-principal mode (`ipMode = true`) only the sentinel profile is
accepted; the tenancy is resolved through `getTenancyStep` and its absence
is a thrown error caught as a 500.  In profile mode the profile comes from
the configuration file.  `identityCalled` records whether
`identityClient.listCompartments` was reached. -/
def compartmentsHandler (ipMode : Bool) (profile parent : Option String)
    (config : Option String) (rootCache : Option String) (meta : MetaResult)
    (up : Upstream Grouping) : CompartmentsRun :=
  if ipMode then
    if profile ≠ some INSTANCE_PRINCIPAL_PROFILE_NAME then
      { status := 400, body := .failure "Profile must be 'instance-principal' in this mode",
        identityCalled := false, metadataRequested := false, newRootCache := rootCache,
        upstreamCompartmentId := none }
    else
      let step := getTenancyStep rootCache meta
      match step.1 with
      | none =>
        { status := 500,
          body := .failure "Unable to get tenancy OCID from instance metadata",
          identityCalled := false, metadataRequested := step.2.2, newRootCache := step.2.1,
          upstreamCompartmentId := none }
      | some t =>
        let cid := if optTruthy parent then parent else some t
        match up with
        | .ok items =>
          { status := 200, body := .items (items.getD []),
            identityCalled := true, metadataRequested := step.2.2, newRootCache := step.2.1,
            upstreamCompartmentId := some cid }
        | .thrown m =>
          { status := 500, body := .failure (strOr m "Failed to list compartments"),
            identityCalled := true, metadataRequested := step.2.2, newRootCache := step.2.1,
            upstreamCompartmentId := some cid }
  else
    if !optTruthy profile then
      { status := 400, body := .failure "Missing profile",
        identityCalled := false, metadataRequested := false, newRootCache := rootCache,
        upstreamCompartmentId := none }
    else
      match loadOciProfile (profile.getD "") config with
      | none =>
        { status := 404, body := .failure "Profile not found",
          identityCalled := false, metadataRequested := false, newRootCache := rootCache,
          upstreamCompartmentId := none }
      | some fields =>
        let cid := if optTruthy parent then parent else objGet fields "tenancy"
        match up with
        | .ok items =>
          { status := 200, body := .items (items.getD []),
            identityCalled := true, metadataRequested := false, newRootCache := rootCache,
            upstreamCompartmentId := some cid }
        | .thrown m =>
          { status := 500, body := .failure (strOr m "Failed to list compartments"),
            identityCalled := true, metadataRequested := false, newRootCache := rootCache,
            upstreamCompartmentId := some cid }

/-- The `GET /api/policies` handler of `backend/index.js`.  In
instance-principal mode only the sentinel profile is accepted and a falsy
`compartmentId` is a 400; the metadata service is never consulted here. -/
def policiesHandler (ipMode : Bool) (profile compartmentId : Option String)
    (config : Option String) (up : Upstream Policy) : PoliciesRun :=
  if ipMode then
    if profile ≠ some INSTANCE_PRINCIPAL_PROFILE_NAME then
      { status := 400, body := .failure "Profile must be 'instance-principal' in this mode",
        identityCalled := false }
    else if !optTruthy compartmentId then
      { status := 400, body := .failure "Missing compartmentId", identityCalled := false }
    else
      match up with
      | .ok items => { status := 200, body := .items (items.getD []), identityCalled := true }
      | .thrown m =>
        { status := 500, body := .failure (strOr m "Failed to list policies"),
          identityCalled := true }
  else
    if !optTruthy profile || !optTruthy compartmentId then
      { status := 400, body := .failure "Missing profile or compartmentId",
        identityCalled := false }
    else
      match loadOciProfile (profile.getD "") config with
      | none => { status := 404, body := .failure "Profile not found", identityCalled := false }
      | some _ =>
        match up with
        | .ok items => { status := 200, body := .items (items.getD []), identityCalled := true }
        | .thrown m =>
          { status := 500, body := .failure (strOr m "Failed to list policies"),
            identityCalled := true }

/-- C3: in instance-principal mode every `/api/compartments` or
`/api/policies` request whose profile differs from the sentinel
`"instance-principal"` returns 400 and reaches neither the identity
service nor the metadata service; in profile mode the sentinel name goes
through the ordinary config lookup — 404 with no identity call when the
configuration has no such profile, and an identity call like any
configured profile otherwise. -/
theorem mode_exclusivity :
    (∀ profile parent config rootCache meta up,
      profile ≠ some INSTANCE_PRINCIPAL_PROFILE_NAME →
      compartmentsHandler true profile parent config rootCache meta up =
        { status := 400, body := .failure "Profile must be 'instance-principal' in this mode",
          identityCalled := false, metadataRequested := false, newRootCache := rootCache,
          upstreamCompartmentId := none }) ∧
    (∀ profile cid config up,
      profile ≠ some INSTANCE_PRINCIPAL_PROFILE_NAME →
      policiesHandler true profile cid config up =
        { status := 400, body := .failure "Profile must be 'instance-principal' in this mode",
          identityCalled := false }) ∧
    (∀ parent config rootCache meta up,
      loadOciProfile INSTANCE_PRINCIPAL_PROFILE_NAME config = none →
      compartmentsHandler false (some INSTANCE_PRINCIPAL_PROFILE_NAME) parent config
          rootCache meta up =
        { status := 404, body := .failure "Profile not found",
          identityCalled := false, metadataRequested := false, newRootCache := rootCache,
          upstreamCompartmentId := none }) ∧
    (∀ cid config up,
      optTruthy cid = true →
      loadOciProfile INSTANCE_PRINCIPAL_PROFILE_NAME config = none →
      policiesHandler false (some INSTANCE_PRINCIPAL_PROFILE_NAME) cid config up =
        { status := 404, body := .failure "Profile not found", identityCalled := false }) ∧
    (∀ parent config rootCache meta up fields,
      loadOciProfile INSTANCE_PRINCIPAL_PROFILE_NAME config = some fields →
      (compartmentsHandler false (some INSTANCE_PRINCIPAL_PROFILE_NAME) parent config
          rootCache meta up).identityCalled = true) := by
  refine ⟨?_, ?_, ?_, ?_, ?_⟩
  · intro profile parent config rootCache meta up hp
    simp [compartmentsHandler, hp]
  · intro profile cid config up hp
    simp [policiesHandler, hp]
  · intro parent config rootCache meta up hload
    simp only [INSTANCE_PRINCIPAL_PROFILE_NAME] at hload
    simp [compartmentsHandler, optTruthy, INSTANCE_PRINCIPAL_PROFILE_NAME, hload]
  · intro cid config up hcid hload
    simp only [INSTANCE_PRINCIPAL_PROFILE_NAME] at hload
    simp only [optTruthy] at hcid
    simp [policiesHandler, optTruthy, INSTANCE_PRINCIPAL_PROFILE_NAME, hcid, hload]
  · intro parent config rootCache meta up fields hload
    simp only [INSTANCE_PRINCIPAL_PROFILE_NAME] at hload
    cases up <;>
      simp [compartmentsHandler, optTruthy, INSTANCE_PRINCIPAL_PROFILE_NAME, hload]

/-- Witness for C3: the profile name `"dev"` is rejected with 400 and no
identity call in instance-principal mode, and the sentinel name is a 404
with no identity call in profile mode against a config without it. -/
theorem mode_exclusivity_witness :
    (compartmentsHandler true (some "dev") none (some "[dev]\ntenancy=t") none
        MetaResult.netError (Upstream.ok none)).identityCalled = false ∧
    (policiesHandler true (some "dev") (some "c1") (some "[dev]\ntenancy=t")
        (Upstream.ok none)).status = 400 ∧
    (policiesHandler false (some INSTANCE_PRINCIPAL_PROFILE_NAME) (some "c1")
        (some "[dev]\ntenancy=t") (Upstream.ok none)).status = 404 :=
  ⟨by rw [mode_exclusivity.1 (some "dev") none (some "[dev]\ntenancy=t") none
      MetaResult.netError (Upstream.ok none) (by decide)],
   by rw [mode_exclusivity.2.1 (some "dev") (some "c1") (some "[dev]\ntenancy=t")
      (Upstream.ok none) (by decide)],
   by rw [mode_exclusivity.2.2.2.1 (some "c1") (some "[dev]\ntenancy=t")
      (Upstream.ok none) (by decide) (by decide)]⟩

/-! ## Client-side NavigationController (`CompartmentBrowser.jsx`)

The component state is a `Session`.  A fetch is split into its synchronous
part (guards, loading flags, issuing the HTTP request) and the completion
callback applied when the response arrives; what the network would deliver
is passed in as a `ChildrenOutcome` / `PoliciesOutcome`.  The promise
chain `fetch(..).then(r => r.json()).then(cb).catch(handler)` is embedded
as an `Except Unit` value fed through `catchE`, so that a rejection of any
stage is visibly converted into the catch handler state.  Composite flows
(`handleDrilldown`, `handleBack`) fire two requests; their completions are
applied in the order the requests were issued (first-in-first-out
network). -/

/-- One `{id, name}` entry of the compartment stack. -/
structure CompEntry where
  id : String
  name : String
deriving DecidableEq, Repr

/-- The component state of `CompartmentBrowser`. -/
structure Session where
  selectedProfile : String
  profileRootId : String
  compartmentStack : List CompEntry
  compartments : List Grouping
  policies : List Policy
  loadingCompartments : Bool
  loadingPolicies : Bool
  error : String
deriving DecidableEq, Repr

/-- An HTTP request issued against the backend.  The `parent` query
parameter is only appended when the parent id is truthy. -/
inductive ApiRequest
  | compartmentsReq (profile : String) (parent : Option String)
  | policiesReq (profile : String) (compartmentId : String)
deriving DecidableEq, Repr

/-- What a children-fetch response delivers: a network/parse rejection, an
array of compartments, or a non-array JSON value whose `error` field may
be absent or empty. -/
inductive ChildrenOutcome
  | netFail
  | arr (items : List Grouping)
  | nonArr (errField : Option String)
deriving DecidableEq

/-- What a policies-fetch response delivers. -/
inductive PoliciesOutcome
  | netFail
  | arr (items : List Policy)
  | nonArr (errField : Option String)
deriving DecidableEq

/-- `.catch` of a promise chain: a rejected chain is replaced by the
handler result, a fulfilled one is kept. -/
def catchE {α : Type} (r : Except Unit α) (h : α) : Except Unit α :=
  match r with
  | .ok a => .ok a
  | .error _ => .ok h

/-- Synchronous part of `fetchPolicies(compartmentId)`: the guard
`!selectedProfile || !compartmentId` clears the policies list and issues
nothing; otherwise the loading flag is set, the error cleared, and the
request issued. -/
def fetchPoliciesStart (s : Session) (compartmentId : String) :
    Session × Option ApiRequest :=
  if s.selectedProfile = "" ∨ compartmentId = "" then
    ({ s with policies := [] }, none)
  else
    ({ s with loadingPolicies := true, error := "" },
     some (.policiesReq s.selectedProfile compartmentId))

/-- The `.then` stage of the policies promise chain: a network failure is
a rejection; an array response stores the policies; a non-array response
sets `data.error || 'Unexpected response'` and clears the list. -/
def fetchPoliciesChained (s : Session) (o : PoliciesOutcome) : Except Unit Session :=
  match o with
  | .netFail => .error ()
  | .arr items => .ok { s with policies := items, loadingPolicies := false }
  | .nonArr e =>
    .ok { s with error := strOr e "Unexpected response", policies := [],
                 loadingPolicies := false }

/-- The `.catch` handler of `fetchPolicies`. -/
def fetchPoliciesOnErr (s : Session) : Session :=
  { s with error := "Failed to load policies.", policies := [], loadingPolicies := false }

/-- Completion of a policies-fetch: the chain fed through `.catch`. -/
def fetchPoliciesComplete (s : Session) (o : PoliciesOutcome) : Session :=
  match catchE (fetchPoliciesChained s o) (fetchPoliciesOnErr s) with
  | .ok s2 => s2
  | .error _ => s

/-- `fetchPolicies` with its response applied immediately (no competing
request in flight). -/
def fetchPoliciesFull (s : Session) (compartmentId : String) (o : PoliciesOutcome) :
    Session × List ApiRequest :=
  match fetchPoliciesStart s compartmentId with
  | (s1, none) => (s1, [])
  | (s1, some r) => (fetchPoliciesComplete s1 o, [r])

/-- Synchronous part of `fetchChildren(parentId, setRootId)`: the guard
`!selectedProfile` returns silently; otherwise loading is set, the error
cleared, and the request issued with `parent` only when truthy. -/
def fetchChildrenStart (s : Session) (parentId : String) :
    Session × Option ApiRequest :=
  if s.selectedProfile = "" then (s, none)
  else
    ({ s with loadingCompartments := true, error := "" },
     some (.compartmentsReq s.selectedProfile
       (if parentId = "" then none else some parentId)))

/-- `setRootId && data.length > 0 && data[0].compartmentId`: the truthy
root hint taken from the first returned compartment. -/
def rootHint (setRootId : Bool) (items : List Grouping) : Option String :=
  if setRootId then
    match items with
    | [] => none
    | g :: _ =>
      match g.compartmentId with
      | some cid => if cid = "" then none else some cid
      | none => none
  else none

/-- The `.then` stage of the children promise chain.  On an array response
the compartments are stored, the root hint (if any) is memoized, and the
synchronous part of the nested `fetchPolicies` runs for the hint or the
parent id; the returned triple carries the session, the nested policies
request (if issued), and the id the nested `fetchPolicies` was invoked
with. -/
def fetchChildrenChained (s : Session) (parentId : String) (setRootId : Bool)
    (o : ChildrenOutcome) : Except Unit (Session × Option ApiRequest × Option String) :=
  match o with
  | .netFail => .error ()
  | .arr items =>
    let s2 := { s with compartments := items }
    let hint := rootHint setRootId items
    let s3 := match hint with
      | some cid => { s2 with profileRootId := cid }
      | none => s2
    let target := hint.getD parentId
    let started := fetchPoliciesStart s3 target
    .ok ({ started.1 with loadingCompartments := false }, started.2, some target)
  | .nonArr e =>
    .ok ({ s with error := strOr e "Unexpected response", compartments := [],
                  loadingCompartments := false }, none, none)

/-- The `.catch` handler of `fetchChildren`. -/
def fetchChildrenOnErr (s : Session) : Session :=
  { s with error := "Failed to load compartments.", compartments := [],
           loadingCompartments := false }

/-- Completion of a children-fetch: the chain fed through `.catch`. -/
def fetchChildrenApply (s : Session) (parentId : String) (setRootId : Bool)
    (o : ChildrenOutcome) : Session × Option ApiRequest × Option String :=
  match catchE (fetchChildrenChained s parentId setRootId o) (fetchChildrenOnErr s, none, none) with
  | .ok r => r
  | .error _ => (s, none, none)

/-- Result of a children-fetch whose nested policies-fetch (if any) also
completed: final session, requests issued in order, and the id the nested
`fetchPolicies` was invoked with (`none` when the success callback did not
run). -/
structure ChildrenRun where
  session : Session
  requests : List ApiRequest
  policiesCallArg : Option String
deriving DecidableEq

/-- `fetchChildren(parentId, setRootId)` with its response and the nested
policies response applied in order (no competing request in flight). -/
def fetchChildrenFull (s : Session) (parentId : String) (setRootId : Bool)
    (co : ChildrenOutcome) (po : PoliciesOutcome) : ChildrenRun :=
  match fetchChildrenStart s parentId with
  | (s1, none) => ⟨s1, [], none⟩
  | (s1, some r) =>
    let applied := fetchChildrenApply s1 parentId setRootId co
    let s3 := match applied.2.1 with
      | some _ => fetchPoliciesComplete applied.1 po
      | none => applied.1
    ⟨s3, r :: applied.2.1.toList, applied.2.2⟩

/-- A navigation event that fires `fetchChildren(targetId)` and
`fetchPolicies(targetId)` back to back (the bodies of `handleDrilldown`
and `handleBack`).  Responses complete in the order the requests were
issued: children first (starting the nested policies fetch), then the
direct policies fetch, then the nested one. -/
def dualFetch (s : Session) (targetId : String) (co : ChildrenOutcome)
    (poDirect poInner : PoliciesOutcome) : Session × List ApiRequest :=
  let started := fetchChildrenStart s targetId
  let startedPol := fetchPoliciesStart started.1 targetId
  let applied := match started.2 with
    | some _ => fetchChildrenApply startedPol.1 targetId false co
    | none => (startedPol.1, none, none)
  let s4 := match startedPol.2 with
    | some _ => fetchPoliciesComplete applied.1 poDirect
    | none => applied.1
  let s5 := match applied.2.1 with
    | some _ => fetchPoliciesComplete s4 poInner
    | none => s4
  (s5, started.2.toList ++ startedPol.2.toList ++ applied.2.1.toList)

/-- `handleDrilldown(c)`: push `{c.id, c.name}` and fetch children and
policies of `c.id`. -/
def handleDrilldown (s : Session) (c : Grouping) (co : ChildrenOutcome)
    (poDirect poInner : PoliciesOutcome) : Session × List ApiRequest :=
  dualFetch { s with compartmentStack := s.compartmentStack ++ [⟨c.id, c.name⟩] }
    c.id co poDirect poInner

/-- `handleBack()`: drop the last stack entry, recompute the effective
parent id (new stack top, or the memoized root id when empty), and fetch
children and policies for it. -/
def handleBack (s : Session) (co : ChildrenOutcome)
    (poDirect poInner : PoliciesOutcome) : Session × List ApiRequest :=
  let newStack := s.compartmentStack.dropLast
  let parentId := match newStack.getLast? with
    | none => s.profileRootId
    | some e => e.id
  dualFetch { s with compartmentStack := newStack } parentId co poDirect poInner

/-- The `useEffect` body run when a truthy profile is selected: reset the
stack and run `fetchChildren('', true)`. -/
def selectProfileEffect (s : Session) (co : ChildrenOutcome) (po : PoliciesOutcome) :
    ChildrenRun :=
  fetchChildrenFull { s with compartmentStack := [] } "" true co po

/-! ### Stack-only view of navigation -/

/-- A drill-down or back navigation event, stack-wise. -/
inductive NavOp
  | drill (c : CompEntry)
  | back
deriving DecidableEq, Repr

/-- Effect of one navigation event on the stack: `handleDrilldown` appends
(`[...stack, entry]`), `handleBack` drops the last entry
(`stack.slice(0, -1)`). -/
def navStackStep (stack : List CompEntry) : NavOp → List CompEntry
  | .drill c => stack ++ [c]
  | .back => stack.dropLast

/-- The stack after a sequence of navigation events. -/
def navRun (stack : List CompEntry) (ops : List NavOp) : List CompEntry :=
  ops.foldl navStackStep stack

/-- The entries pushed by a sequence of navigation events, in push order. -/
def drilledEntries (ops : List NavOp) : List CompEntry :=
  ops.filterMap (fun o => match o with | .drill c => some c | .back => none)

/-- Number of back events in a sequence. -/
def backCount (ops : List NavOp) : Nat :=
  (ops.filter (fun o => match o with | .drill _ => false | .back => true)).length

/-! ### Supporting lemmas -/

theorem strOr_ne_empty (m : Option String) (d : String) (hd : d ≠ "") :
    strOr m d ≠ "" := by
  cases m with
  | none => exact hd
  | some s =>
    simp only [strOr]
    by_cases hs : s = "" <;> simp [hs, hd]

theorem fetchPoliciesStart_stack (s : Session) (cid : String) :
    (fetchPoliciesStart s cid).1.compartmentStack = s.compartmentStack := by
  simp only [fetchPoliciesStart]
  split <;> rfl

theorem fetchPoliciesComplete_stack (s : Session) (o : PoliciesOutcome) :
    (fetchPoliciesComplete s o).compartmentStack = s.compartmentStack := by
  cases o <;> rfl

theorem fetchChildrenStart_stack (s : Session) (pid : String) :
    (fetchChildrenStart s pid).1.compartmentStack = s.compartmentStack := by
  simp only [fetchChildrenStart]
  split <;> rfl

theorem fetchChildrenApply_stack (s : Session) (pid : String) (sr : Bool)
    (o : ChildrenOutcome) :
    (fetchChildrenApply s pid sr o).1.compartmentStack = s.compartmentStack := by
  cases o with
  | netFail => rfl
  | nonArr e => rfl
  | arr items =>
    simp only [fetchChildrenApply, fetchChildrenChained, catchE]
    cases h : rootHint sr items <;>
      simp only [fetchPoliciesStart, Option.getD] <;> split <;> rfl

theorem dualFetch_stack (s : Session) (t : String) (co : ChildrenOutcome)
    (pd pi : PoliciesOutcome) :
    (dualFetch s t co pd pi).1.compartmentStack = s.compartmentStack := by
  simp only [dualFetch]
  cases h1 : (fetchChildrenStart s t).2 <;>
    cases h2 : (fetchPoliciesStart (fetchChildrenStart s t).1 t).2 <;>
    cases h3 : (fetchChildrenApply (fetchPoliciesStart (fetchChildrenStart s t).1 t).1 t false co).2.1 <;>
    simp [h1, h2, h3, fetchPoliciesComplete_stack, fetchChildrenApply_stack,
      fetchPoliciesStart_stack, fetchChildrenStart_stack]

theorem handleDrilldown_stack (s : Session) (c : Grouping) (co : ChildrenOutcome)
    (pd pi : PoliciesOutcome) :
    (handleDrilldown s c co pd pi).1.compartmentStack =
      s.compartmentStack ++ [⟨c.id, c.name⟩] := by
  simpa using dualFetch_stack
    { s with compartmentStack := s.compartmentStack ++ [⟨c.id, c.name⟩] } c.id co pd pi

theorem handleBack_stack (s : Session) (co : ChildrenOutcome)
    (pd pi : PoliciesOutcome) :
    (handleBack s co pd pi).1.compartmentStack = s.compartmentStack.dropLast := by
  simpa using dualFetch_stack { s with compartmentStack := s.compartmentStack.dropLast }
    (match s.compartmentStack.dropLast.getLast? with
     | none => s.profileRootId
     | some e => e.id) co pd pi

theorem navRun_drills (entries : List CompEntry) :
    ∀ stack : List CompEntry, navRun stack (entries.map NavOp.drill) = stack ++ entries := by
  induction entries with
  | nil => intro stack; simp [navRun]
  | cons e rest ih =>
    intro stack
    simp only [List.map_cons, navRun, List.foldl_cons, navStackStep]
    simpa using ih (stack ++ [e])

theorem navRun_backs (M : Nat) :
    ∀ stack : List CompEntry, navRun stack (List.replicate M NavOp.back) =
      stack.take (stack.length - M) := by
  induction M with
  | zero => intro stack; simp [navRun]
  | succ M ih =>
    intro stack
    simp only [List.replicate_succ, navRun, List.foldl_cons, navStackStep]
    have h := ih stack.dropLast
    simp only [navRun] at h
    rw [h, List.dropLast_eq_take, List.length_take, List.take_take]
    congr 1
    omega

/-! ### Sample values used by concrete witnesses -/

/-- A session with profile `"dev"` selected and nothing loaded yet. -/
def sampleProfileSession : Session :=
  { selectedProfile := "dev", profileRootId := "", compartmentStack := [],
    compartments := [], policies := [], loadingCompartments := false,
    loadingPolicies := false, error := "" }

/-- A session with no profile selected. -/
def noProfileSession : Session :=
  { sampleProfileSession with selectedProfile := "" }

/-- A concrete compartment node. -/
def sampleGrouping : Grouping :=
  { id := "ocid1.compartment.x", name := "Sales", description := "", compartmentId := none }

/-- The interleaved navigation sequence refuting the stack claim. -/
def cexNavOps : List NavOp :=
  [NavOp.drill ⟨"ocid1.compartment.a", "A"⟩, NavOp.back,
   NavOp.drill ⟨"ocid1.compartment.b", "B"⟩]

/-! ### Theorems about the navigation controller -/

/-- Counterexample to C1 as stated: the interleaved sequence
drill-down(A), back, drill-down(B) has N = 2 drill-downs and M = 1 backs
with M ≤ N, yet the resulting stack `[B]` is not the first N − M = 1
pushed entries `[A]` (its length does equal N − M here). -/
theorem nav_stack_claim_counterexample :
    backCount cexNavOps ≤ (drilledEntries cexNavOps).length ∧
    navRun [] cexNavOps ≠
      (drilledEntries cexNavOps).take
        ((drilledEntries cexNavOps).length - backCount cexNavOps) ∧
    (navRun [] cexNavOps).length =
      (drilledEntries cexNavOps).length - backCount cexNavOps := by
  decide

/-- C1 (amended): for the sequence of N drill-downs followed by M backs
(M ≤ N) from the empty stack, the stack is exactly the first N − M pushed
entries in push order, of length N − M; and step-wise, `handleDrilldown`
appends exactly its `{id, name}` entry while `handleBack` removes exactly
the last entry, whatever the fetch outcomes are. -/
theorem nav_stack_pushes_then_backs (entries : List CompEntry) (M : Nat)
    (hM : M ≤ entries.length) :
    navRun [] (entries.map NavOp.drill ++ List.replicate M NavOp.back) =
      entries.take (entries.length - M) ∧
    (navRun [] (entries.map NavOp.drill ++ List.replicate M NavOp.back)).length =
      entries.length - M ∧
    (∀ s c co pd pi, (handleDrilldown s c co pd pi).1.compartmentStack =
      navStackStep s.compartmentStack (NavOp.drill ⟨c.id, c.name⟩)) ∧
    (∀ s co pd pi, (handleBack s co pd pi).1.compartmentStack =
      navStackStep s.compartmentStack NavOp.back) := by
  have hrun : navRun [] (entries.map NavOp.drill ++ List.replicate M NavOp.back) =
      entries.take (entries.length - M) := by
    simp only [navRun, List.foldl_append]
    have h1 := navRun_drills entries []
    have h2 := navRun_backs M entries
    simp only [navRun] at h1 h2
    rw [h1]
    simpa using h2
  refine ⟨hrun, ?_, ?_, ?_⟩
  · rw [hrun, List.length_take]
    omega
  · intro s c co pd pi
    simpa [navStackStep] using handleDrilldown_stack s c co pd pi
  · intro s co pd pi
    simpa [navStackStep] using handleBack_stack s co pd pi

/-- Witness for the amended C1: two drill-downs followed by one back leave
exactly the first pushed entry. -/
theorem nav_stack_pushes_then_backs_witness :
    navRun [] ([(⟨"ocid1.compartment.a", "A"⟩ : CompEntry),
        ⟨"ocid1.compartment.b", "B"⟩].map NavOp.drill ++ List.replicate 1 NavOp.back) =
      [⟨"ocid1.compartment.a", "A"⟩] := by
  have h := (nav_stack_pushes_then_backs
    [⟨"ocid1.compartment.a", "A"⟩, ⟨"ocid1.compartment.b", "B"⟩] 1 (by decide)).1
  simpa using h

/-- C4: a children-fetch that succeeds with zero items still invokes the
policies-fetch for the same (now-leaf) id — the nested `fetchPolicies`
call receives exactly the parent id, for every parent id and `setRootId`
flag, including the profile-selection case `parentId = ""` where the root
is not yet resolved (whether an HTTP request then goes out is the empty-id
guard of `fetchPolicies`, treated separately). -/
theorem empty_children_still_fetch_policies (s : Session) (parentId : String)
    (setRootId : Bool) (po : PoliciesOutcome) (hp : s.selectedProfile ≠ "") :
    (fetchChildrenFull s parentId setRootId (.arr []) po).policiesCallArg =
      some parentId := by
  simp [fetchChildrenFull, fetchChildrenStart, hp, fetchChildrenApply,
    fetchChildrenChained, catchE, rootHint]

/-- Witness for C4: the profile-selection fetch (`parentId = ""`,
`setRootId = true`) with an empty children array still invokes the
policies-fetch with the empty root id. -/
theorem empty_children_still_fetch_policies_witness :
    (fetchChildrenFull sampleProfileSession "" true (.arr []) (.arr [])).policiesCallArg =
      some "" :=
  empty_children_still_fetch_policies sampleProfileSession "" true (.arr []) (by decide)

/-- C5: every failing fetch (network rejection or non-array response) sets
a non-empty session error message and clears the corresponding list; the
promise chain fed through `.catch` always fulfils (no unhandled
rejection); and the stack mutation of the triggering `handleDrilldown` /
`handleBack` stands regardless of the outcomes. -/
theorem fetch_failure_handling (s : Session) (cid parentId : String)
    (setRootId : Bool) (po : PoliciesOutcome) (co : ChildrenOutcome)
    (c : Grouping) (pd pi : PoliciesOutcome)
    (hp : s.selectedProfile ≠ "") (hcid : cid ≠ "")
    (hpo : po = .netFail ∨ ∃ e, po = .nonArr e)
    (hco : co = .netFail ∨ ∃ e, co = .nonArr e) :
    ((fetchPoliciesFull s cid po).1.error ≠ "" ∧
     (fetchPoliciesFull s cid po).1.policies = []) ∧
    (catchE (fetchPoliciesChained (fetchPoliciesStart s cid).1 po)
      (fetchPoliciesOnErr (fetchPoliciesStart s cid).1)).isOk = true ∧
    ((fetchChildrenFull s parentId setRootId co pi).session.error ≠ "" ∧
     (fetchChildrenFull s parentId setRootId co pi).session.compartments = []) ∧
    (catchE (fetchChildrenChained (fetchChildrenStart s parentId).1 parentId setRootId co)
      ((fetchChildrenOnErr (fetchChildrenStart s parentId).1), none, none)).isOk = true ∧
    (handleDrilldown s c co pd pi).1.compartmentStack =
      s.compartmentStack ++ [⟨c.id, c.name⟩] ∧
    (handleBack s co pd pi).1.compartmentStack = s.compartmentStack.dropLast := by
  have hpol : (fetchPoliciesFull s cid po).1.error ≠ "" ∧
      (fetchPoliciesFull s cid po).1.policies = [] := by
    rcases hpo with rfl | ⟨e, rfl⟩
    · simp [fetchPoliciesFull, fetchPoliciesStart, hp, hcid, fetchPoliciesComplete,
        fetchPoliciesChained, fetchPoliciesOnErr, catchE]
    · simp [fetchPoliciesFull, fetchPoliciesStart, hp, hcid, fetchPoliciesComplete,
        fetchPoliciesChained, fetchPoliciesOnErr, catchE,
        strOr_ne_empty e "Unexpected response" (by decide)]
  have hchild : (fetchChildrenFull s parentId setRootId co pi).session.error ≠ "" ∧
      (fetchChildrenFull s parentId setRootId co pi).session.compartments = [] := by
    rcases hco with rfl | ⟨e, rfl⟩
    · simp [fetchChildrenFull, fetchChildrenStart, hp, fetchChildrenApply,
        fetchChildrenChained, fetchChildrenOnErr, catchE]
    · simp [fetchChildrenFull, fetchChildrenStart, hp, fetchChildrenApply,
        fetchChildrenChained, fetchChildrenOnErr, catchE,
        strOr_ne_empty e "Unexpected response" (by decide)]
  have hpok : (catchE (fetchPoliciesChained (fetchPoliciesStart s cid).1 po)
      (fetchPoliciesOnErr (fetchPoliciesStart s cid).1)).isOk = true := by
    rcases hpo with rfl | ⟨e, rfl⟩ <;> simp [catchE, fetchPoliciesChained, Except.isOk, Except.toBool]
  have hcok : (catchE (fetchChildrenChained (fetchChildrenStart s parentId).1 parentId setRootId co)
      ((fetchChildrenOnErr (fetchChildrenStart s parentId).1), none, none)).isOk = true := by
    rcases hco with rfl | ⟨e, rfl⟩ <;> simp [catchE, fetchChildrenChained, Except.isOk, Except.toBool]
  exact ⟨hpol, hpok, hchild, hcok, handleDrilldown_stack s c co pd pi,
    handleBack_stack s co pd pi⟩

/-- Witness for C5: a network failure on the policies fetch and a
non-array children response, triggered from a drilldown into a concrete
node, leave the pushed entry on the stack with the error set and lists
cleared. -/
theorem fetch_failure_handling_witness :
    ((fetchPoliciesFull sampleProfileSession "ocid1.compartment.x" .netFail).1.error ≠ "" ∧
     (fetchPoliciesFull sampleProfileSession "ocid1.compartment.x" .netFail).1.policies = []) ∧
    (catchE (fetchPoliciesChained
        (fetchPoliciesStart sampleProfileSession "ocid1.compartment.x").1 .netFail)
      (fetchPoliciesOnErr
        (fetchPoliciesStart sampleProfileSession "ocid1.compartment.x").1)).isOk = true ∧
    ((fetchChildrenFull sampleProfileSession "" false (.nonArr none) .netFail).session.error ≠ "" ∧
     (fetchChildrenFull sampleProfileSession "" false (.nonArr none) .netFail).session.compartments = []) ∧
    (catchE (fetchChildrenChained
        (fetchChildrenStart sampleProfileSession "").1 "" false (.nonArr none))
      ((fetchChildrenOnErr (fetchChildrenStart sampleProfileSession "").1), none, none)).isOk = true ∧
    (handleDrilldown sampleProfileSession sampleGrouping (.nonArr none) .netFail
        .netFail).1.compartmentStack =
      sampleProfileSession.compartmentStack ++ [⟨sampleGrouping.id, sampleGrouping.name⟩] ∧
    (handleBack sampleProfileSession (.nonArr none) .netFail .netFail).1.compartmentStack =
      sampleProfileSession.compartmentStack.dropLast :=
  fetch_failure_handling sampleProfileSession "ocid1.compartment.x" "" false
    .netFail (.nonArr none) sampleGrouping .netFail .netFail
    (by decide) (by decide) (Or.inl rfl) (Or.inr ⟨none, rfl⟩)

/-- The policies list an applied policies response leaves behind. -/
def policiesOf : PoliciesOutcome → List Policy
  | .arr items => items
  | _ => []

/-- C8: a drilldown into node `c` whose children-fetch succeeds with an
array issues exactly two identical policies requests for `c.id` — one
directly from `handleDrilldown` and one from the children success path —
and the final policies list is the one of the second (nested) response,
whatever the first delivered. -/
theorem drilldown_issues_two_policy_fetches (s : Session) (c : Grouping)
    (items : List Grouping) (pd pi : PoliciesOutcome)
    (hp : s.selectedProfile ≠ "") (hc : c.id ≠ "") :
    (handleDrilldown s c (.arr items) pd pi).2 =
      [ApiRequest.compartmentsReq s.selectedProfile (some c.id),
       ApiRequest.policiesReq s.selectedProfile c.id,
       ApiRequest.policiesReq s.selectedProfile c.id] ∧
    (handleDrilldown s c (.arr items) pd pi).1.policies = policiesOf pi := by
  constructor
  · simp [handleDrilldown, dualFetch, fetchChildrenStart, fetchPoliciesStart,
      fetchChildrenApply, fetchChildrenChained, catchE, rootHint, hp, hc]
  · cases pi <;>
      simp [handleDrilldown, dualFetch, fetchChildrenStart, fetchPoliciesStart,
        fetchChildrenApply, fetchChildrenChained, catchE, rootHint, hp, hc,
        fetchPoliciesComplete, fetchPoliciesChained, fetchPoliciesOnErr, policiesOf]

/-- Witness for C8: a concrete drilldown issues the two identical policies
requests and ends with the nested (second) response's policies. -/
theorem drilldown_issues_two_policy_fetches_witness :
    (handleDrilldown sampleProfileSession sampleGrouping (.arr []) .netFail
        (.arr [⟨"ocid1.policy.p", "P", ["allow"]⟩])).2 =
      [ApiRequest.compartmentsReq "dev" (some "ocid1.compartment.x"),
       ApiRequest.policiesReq "dev" "ocid1.compartment.x",
       ApiRequest.policiesReq "dev" "ocid1.compartment.x"] ∧
    (handleDrilldown sampleProfileSession sampleGrouping (.arr []) .netFail
        (.arr [⟨"ocid1.policy.p", "P", ["allow"]⟩])).1.policies =
      [⟨"ocid1.policy.p", "P", ["allow"]⟩] := by
  have h := drilldown_issues_two_policy_fetches sampleProfileSession sampleGrouping []
    .netFail (.arr [⟨"ocid1.policy.p", "P", ["allow"]⟩]) (by decide) (by decide)
  simpa [sampleProfileSession, sampleGrouping, policiesOf] using h

/-- C10: a policies-fetch with no selected profile or an empty compartment
id only clears the policies list and issues no HTTP request; consequently,
selecting a profile whose root listing is empty (and so yields no root-id
hint) leaves the policies list empty and sends no policies request at
all. -/
theorem policies_fetch_guard :
    (∀ (s : Session) (cid : String) (o : PoliciesOutcome),
      s.selectedProfile = "" ∨ cid = "" →
      fetchPoliciesFull s cid o = ({ s with policies := [] }, [])) ∧
    (∀ (s : Session) (po : PoliciesOutcome), s.selectedProfile ≠ "" →
      (selectProfileEffect s (.arr []) po).requests =
        [ApiRequest.compartmentsReq s.selectedProfile none] ∧
      (selectProfileEffect s (.arr []) po).session.policies = []) := by
  constructor
  · intro s cid o h
    simp [fetchPoliciesFull, fetchPoliciesStart, h]
  · intro s po hp
    simp [selectProfileEffect, fetchChildrenFull, fetchChildrenStart, hp,
      fetchChildrenApply, fetchChildrenChained, catchE, rootHint, fetchPoliciesStart]

/-- Witness for C10: with no profile selected no request goes out and the
list is cleared; selecting `"dev"` over an empty root listing sends only
the children request and leaves the policies empty. -/
theorem policies_fetch_guard_witness :
    fetchPoliciesFull noProfileSession "ocid1.compartment.x" .netFail =
      ({ noProfileSession with policies := [] }, []) ∧
    (selectProfileEffect sampleProfileSession (.arr []) .netFail).requests =
      [ApiRequest.compartmentsReq "dev" none] ∧
    (selectProfileEffect sampleProfileSession (.arr []) .netFail).session.policies = [] :=
  ⟨policies_fetch_guard.1 noProfileSession "ocid1.compartment.x" .netFail (Or.inl rfl),
   (policies_fetch_guard.2 sampleProfileSession .netFail (by decide)).1,
   (policies_fetch_guard.2 sampleProfileSession .netFail (by decide)).2⟩

end OciBrowser
